import Mathlib

/-!
# Verification of the Student-Database server's reporting and shaping logic

A shallow embedding, in Lean 4, of the pure computational core of
`src/server.js` (an Express + Supabase CRUD application for students,
courses and enrollments), together with theorems settling the frozen
claims about its specification.

Conventions of the embedding:

* JavaScript numbers that hold integral data (identifiers, credit hours,
  page numbers, counts) are modelled as `Int`/`Nat`; the GPA arithmetic
  (grade points, credit-weighted sums, division, `toFixed(2)`) is
  modelled over `Rat`, idealising IEEE doubles by exact rationals.
* A nullable / possibly-absent JavaScript value is an `Option`;
  for a request-body field that distinguishes `undefined` (absent) from
  `null`, the type is `Option (Option _)` (outer `none` = absent,
  `some none` = explicit `null`).
* JavaScript truthiness on strings (`if (s)`) is `s ≠ ""` on present
  values; on numbers it is `n ≠ 0`.
* Fallible operations return `Except String _`, the error being the
  message the route handler sends.
* The hosted record store (Supabase/PostgREST) is an external
  collaborator; the few behaviours of it that the handlers rely on are
  modelled explicitly and documented at their definitions: range
  fetches, and the enrollment uniqueness constraint, which the
  repository itself declares in the migration SQL shipped in
  `src/public/script.js` (`UNIQUE(student_id, course_id, semester)`).
-/

namespace StudentDB

/-! ## JavaScript helpers -/

/-- Truthiness of a possibly-absent string (`undefined`, `null` and `""`
are falsy). -/
def truthyStr : Option String → Bool
  | none => false
  | some s => s != ""

/-- Truthiness of a possibly-absent integral number (`undefined`, `null`
and `0` are falsy). -/
def truthyInt : Option Int → Bool
  | none => false
  | some n => n != 0

/-- `v || null` on a nullable string value: an empty or absent value
becomes `null`, anything else is kept. -/
def jsOrNull : Option String → Option String
  | none => none
  | some s => if s = "" then none else some s

/-- `v || d` on a nullable string with a truthy string default. -/
def jsOrDefault (v : Option String) (d : String) : String :=
  match v with
  | none => d
  | some s => if s = "" then d else s

/-- Whether `pat` occurs at the start of `s` (on character lists). -/
def startsWithChars : List Char → List Char → Bool
  | _, [] => true
  | [], _ :: _ => false
  | a :: as, b :: bs => a == b && startsWithChars as bs

/-- `String.prototype.includes`: whether `pat` occurs somewhere in `s`
(on character lists). -/
def includesChars : List Char → List Char → Bool
  | [], pat => pat.isEmpty
  | a :: as, pat => startsWithChars (a :: as) pat || includesChars as pat

/-- `s.includes(pat)` for strings. -/
def jsIncludes (s pat : String) : Bool :=
  includesChars s.data pat.data

/-! ## Grade Scale (`server.js` lines 622-628)

The 13-entry `gradePoints` object literal; lookup of a key that is not
one of the 13 letter grades yields `undefined`, i.e. `none`. -/

/-- The `gradePoints` table of `GET /api/dashboard`. -/
def gradePoints : String → Option Rat
  | "A+" => some 4
  | "A" => some 4
  | "A-" => some (37/10)
  | "B+" => some (33/10)
  | "B" => some 3
  | "B-" => some (27/10)
  | "C+" => some (23/10)
  | "C" => some 2
  | "C-" => some (17/10)
  | "D+" => some (13/10)
  | "D" => some 1
  | "D-" => some (7/10)
  | "F" => some 0
  | _ => none

/-! ## Dashboard aggregation (`server.js` lines 595-710) -/

/-- One row of the dashboard's enrollment fetch
(`select('grade, status, courses!inner(credits)')`): the grade (nullable
string), the status string and the joined course's credit hours.
`course_credits = none` models a missing joined course object or a
`null` credits column. -/
structure DashRow where
  grade : Option String
  status : String
  course_credits : Option Int
  deriving DecidableEq, Repr

/-- The guard `e.grade && gradePoints[e.grade] !== undefined`: the grade
is present, truthy, and one of the 13 recognized letter grades. -/
def gradedRecognized (e : DashRow) : Bool :=
  match e.grade with
  | none => false
  | some g => g != "" && (gradePoints g).isSome

/-- The grade string used as distribution key and scale lookup
(meaningful only when `gradedRecognized` holds). -/
def gradeKey (e : DashRow) : String :=
  e.grade.getD ""

/-- The points of the row's grade (`gradePoints[e.grade]`, defaulting to
`0` where the guard does not hold). -/
def rowPoints (e : DashRow) : Rat :=
  match e.grade with
  | none => 0
  | some g => (gradePoints g).getD 0

/-- `const credits = e.courses?.credits || 3`: a missing joined course,
a `null` credits value, or a credits value of `0` all fall back to the
constant `3`. -/
def effCredits (e : DashRow) : Rat :=
  match e.course_credits with
  | none => 3
  | some c => if c = 0 then 3 else (c : Rat)

/-- Increment the count under key `k` of a JavaScript object used as a
counter (`o[k] = (o[k] || 0) + 1`), modelled as an association list:
if the key exists its count is incremented, otherwise the key is
appended with count `1`. -/
def bump (m : List (String × Nat)) (k : String) : List (String × Nat) :=
  if m.any (fun p => p.1 == k) then
    m.map (fun p => if p.1 == k then (p.1, p.2 + 1) else p)
  else
    m ++ [(k, 1)]

/-- The keys of a counter object. -/
def keysOf (m : List (String × Nat)) : List String :=
  m.map Prod.fst

/-- The sum of all counts of a counter object. -/
def vsum (m : List (String × Nat)) : Nat :=
  (m.map Prod.snd).sum

/-- The count stored under key `k` (0 when the key is absent). -/
def getCount (m : List (String × Nat)) (k : String) : Nat :=
  ((m.filter (fun p => p.1 == k)).map Prod.snd).sum

/-- The mutable accumulator of the dashboard's `forEach` loop:
`totalCredits`, `totalGradePoints` and the `gradeDistribution` object. -/
structure DashAcc where
  totalCredits : Rat
  totalGradePoints : Rat
  gradeDistribution : List (String × Nat)
  deriving DecidableEq, Repr

/-- One iteration of the loop at `server.js` lines 635-644. -/
def dashStep (acc : DashAcc) (e : DashRow) : DashAcc :=
  if gradedRecognized e then
    { totalCredits := acc.totalCredits + effCredits e
      totalGradePoints := acc.totalGradePoints + rowPoints e * effCredits e
      gradeDistribution := bump acc.gradeDistribution (gradeKey e) }
  else acc

/-- The whole loop, starting from `totalCredits = 0`,
`totalGradePoints = 0`, `gradeDistribution = {}`. -/
def dashFold (l : List DashRow) : DashAcc :=
  l.foldl dashStep ⟨0, 0, []⟩

/-- `Number.prototype.toFixed(2)` on a non-negative value, idealised
over the rationals: round to the nearest hundredth (ties upward) and
print with exactly two digits after the decimal point. -/
def toFixed2 (q : Rat) : String :=
  let n : Nat := (⌊q * 100 + 1/2⌋).toNat
  let cents := n % 100
  toString (n / 100) ++ "." ++
    (if cents < 10 then "0" ++ toString cents else toString cents)

/-- `server.js` line 646: the dashboard's `gpa` field — the quotient of
the accumulated sums formatted by `toFixed(2)`, or the em-dash sentinel
when no credits were accumulated. -/
def dashboardGpa (l : List DashRow) : String :=
  let acc := dashFold l
  if 0 < acc.totalCredits then toFixed2 (acc.totalGradePoints / acc.totalCredits)
  else "—"

/-- The dashboard's `gradeDistribution` object. -/
def dashboardGradeDistribution (l : List DashRow) : List (String × Nat) :=
  (dashFold l).gradeDistribution

/-! ### Specification-side restatement of the GPA sums

The spec describes the same computation as sums over the sub-list of
records whose grade is present and recognized; these definitions follow
that phrasing and are proved equal to the projections of `dashFold`. -/

/-- The records that take part in the GPA computation (spec phrasing:
grade present and recognized by the Grade Scale). -/
def gpaRecords (l : List DashRow) : List DashRow :=
  l.filter gradedRecognized

/-- Spec phrasing of the total-credits sum. -/
def specTotalCredits (l : List DashRow) : Rat :=
  ((gpaRecords l).map effCredits).sum

/-- Spec phrasing of the total-points sum: `points(grade) * credits`,
each record contributing independently. -/
def specTotalPoints (l : List DashRow) : Rat :=
  ((gpaRecords l).map (fun e => rowPoints e * effCredits e)).sum

/-! ### Lemmas about the counter-object operations -/

lemma getCount_nil (k : String) : getCount [] k = 0 := rfl

lemma getCount_cons (q : String × Nat) (t : List (String × Nat)) (k : String) :
    getCount (q :: t) k = (if q.1 = k then q.2 else 0) + getCount t k := by
  simp only [getCount, List.filter_cons]
  by_cases h : q.1 = k <;> simp [h]

lemma vsum_nil : vsum [] = 0 := rfl

lemma vsum_cons (q : String × Nat) (t : List (String × Nat)) :
    vsum (q :: t) = q.2 + vsum t := by simp [vsum]

lemma vsum_append (m n : List (String × Nat)) : vsum (m ++ n) = vsum m + vsum n := by
  simp [vsum]

lemma vsum_bumpMap (m : List (String × Nat)) (k : String) :
    vsum (m.map (fun p => if p.1 == k then (p.1, p.2 + 1) else p))
      = vsum m + m.countP (fun p => p.1 == k) := by
  induction m with
  | nil => rfl
  | cons p t ih =>
    by_cases h : p.1 = k
    · have hh : (if p.1 == k then (p.1, p.2 + 1) else p) = (p.1, p.2 + 1) := by simp [h]
      simp only [List.map_cons, hh, vsum_cons, List.countP_cons, ih, h]
      simp
      omega
    · have hh : (if p.1 == k then (p.1, p.2 + 1) else p) = p := by simp [h]
      simp only [List.map_cons, hh, vsum_cons, List.countP_cons, ih]
      simp [h]
      omega

lemma getCount_bumpMap (m : List (String × Nat)) (k : String) :
    getCount (m.map (fun p => if p.1 == k then (p.1, p.2 + 1) else p)) k
      = getCount m k + m.countP (fun p => p.1 == k) := by
  induction m with
  | nil => rfl
  | cons p t ih =>
    by_cases h : p.1 = k
    · have hh : (if p.1 == k then (p.1, p.2 + 1) else p) = (p.1, p.2 + 1) := by simp [h]
      simp only [List.map_cons, hh, getCount_cons, List.countP_cons, ih, h]
      simp [h]
      omega
    · have hh : (if p.1 == k then (p.1, p.2 + 1) else p) = p := by simp [h]
      simp only [List.map_cons, hh, getCount_cons, List.countP_cons, ih]
      simp [h]

lemma getCount_bumpMap_ne (m : List (String × Nat)) {k k' : String} (hk : k' ≠ k) :
    getCount (m.map (fun p => if p.1 == k then (p.1, p.2 + 1) else p)) k' = getCount m k' := by
  induction m with
  | nil => rfl
  | cons p t ih =>
    by_cases h : p.1 = k
    · have hh : (if p.1 == k then (p.1, p.2 + 1) else p) = (p.1, p.2 + 1) := by simp [h]
      have h2 : ¬ p.1 = k' := fun hc => hk (hc.symm.trans h)
      simp only [List.map_cons, hh, getCount_cons, ih]
      simp [h2]
    · have hh : (if p.1 == k then (p.1, p.2 + 1) else p) = p := by simp [h]
      simp only [List.map_cons, hh, getCount_cons, ih]

lemma getCount_append (m n : List (String × Nat)) (k : String) :
    getCount (m ++ n) k = getCount m k + getCount n k := by
  induction m with
  | nil => simp [getCount]
  | cons q t ih => simp only [List.cons_append, getCount_cons, ih]; omega

lemma keysOf_bump (m : List (String × Nat)) (k : String) :
    keysOf (bump m k) = if m.any (fun p => p.1 == k) then keysOf m else keysOf m ++ [k] := by
  rw [bump]
  split
  · simp only [keysOf, List.map_map]
    congr 1
    funext p
    by_cases h : p.1 = k <;> simp [h]
  · simp [keysOf]

lemma bump_keys_nodup {m : List (String × Nat)} (h : (keysOf m).Nodup) (k : String) :
    (keysOf (bump m k)).Nodup := by
  rw [keysOf_bump]
  split
  · exact h
  · next hany =>
    simp only [List.nodup_append, List.nodup_singleton, true_and]
    refine ⟨h, ?_⟩
    intro a ha hb
    simp only [List.mem_singleton] at hb
    subst hb
    apply hany
    simp only [List.any_eq_true]
    simp only [keysOf, List.mem_map] at ha
    obtain ⟨p, hp, hpk⟩ := ha
    exact ⟨p, hp, by simp [hpk]⟩

lemma countP_keys (m : List (String × Nat)) (k : String) :
    m.countP (fun p => p.1 == k) = (keysOf m).count k := by
  rw [keysOf, List.count_eq_countP, List.countP_map]
  rfl

lemma vsum_bump {m : List (String × Nat)} (h : (keysOf m).Nodup) (k : String) :
    vsum (bump m k) = vsum m + 1 := by
  rw [bump]
  split
  · next hany =>
    rw [vsum_bumpMap, countP_keys]
    have hk : k ∈ keysOf m := by
      simp only [List.any_eq_true] at hany
      obtain ⟨p, hp, hpk⟩ := hany
      simp only [keysOf, List.mem_map]
      exact ⟨p, hp, by simpa using hpk⟩
    rw [List.count_eq_one_of_mem h hk]
  · rw [vsum_append, vsum_cons, vsum_nil]

lemma getCount_bump_self {m : List (String × Nat)} (h : (keysOf m).Nodup) (k : String) :
    getCount (bump m k) k = getCount m k + 1 := by
  rw [bump]
  split
  · next hany =>
    rw [getCount_bumpMap, countP_keys]
    have hk : k ∈ keysOf m := by
      simp only [List.any_eq_true] at hany
      obtain ⟨p, hp, hpk⟩ := hany
      simp only [keysOf, List.mem_map]
      exact ⟨p, hp, by simpa using hpk⟩
    rw [List.count_eq_one_of_mem h hk]
  · rw [getCount_append, getCount_cons, getCount_nil]
    simp

lemma getCount_bump_ne (m : List (String × Nat)) {k k' : String} (hk : k' ≠ k) :
    getCount (bump m k) k' = getCount m k' := by
  rw [bump]
  split
  · exact getCount_bumpMap_ne m hk
  · rw [getCount_append, getCount_cons, getCount_nil]
    have : ¬ (k = k') := fun hc => hk hc.symm
    simp [this]

/-! ### Refinement: the dashboard loop computes the spec-side sums -/

lemma foldl_dash_totalCredits (l : List DashRow) (acc : DashAcc) :
    (l.foldl dashStep acc).totalCredits = acc.totalCredits + specTotalCredits l := by
  induction l generalizing acc with
  | nil => simp [specTotalCredits, gpaRecords]
  | cons e t ih =>
    rw [List.foldl_cons, ih]
    by_cases h : gradedRecognized e
    · simp [dashStep, h, specTotalCredits, gpaRecords, List.filter_cons, add_assoc]
    · simp [dashStep, h, specTotalCredits, gpaRecords, List.filter_cons]

lemma foldl_dash_totalGradePoints (l : List DashRow) (acc : DashAcc) :
    (l.foldl dashStep acc).totalGradePoints = acc.totalGradePoints + specTotalPoints l := by
  induction l generalizing acc with
  | nil => simp [specTotalPoints, gpaRecords]
  | cons e t ih =>
    rw [List.foldl_cons, ih]
    by_cases h : gradedRecognized e
    · simp [dashStep, h, specTotalPoints, gpaRecords, List.filter_cons, add_assoc]
    · simp [dashStep, h, specTotalPoints, gpaRecords, List.filter_cons]

lemma dashFold_totalCredits (l : List DashRow) :
    (dashFold l).totalCredits = specTotalCredits l := by
  simpa using foldl_dash_totalCredits l ⟨0, 0, []⟩

lemma dashFold_totalGradePoints (l : List DashRow) :
    (dashFold l).totalGradePoints = specTotalPoints l := by
  simpa using foldl_dash_totalGradePoints l ⟨0, 0, []⟩

/-- The dashboard GPA, rephrased through the spec-side sums. -/
lemma dashboardGpa_spec (l : List DashRow) :
    dashboardGpa l =
      if 0 < specTotalCredits l then toFixed2 (specTotalPoints l / specTotalCredits l)
      else "—" := by
  rw [dashboardGpa, dashFold_totalCredits, dashFold_totalGradePoints]

lemma dashStep_dist_graded {acc : DashAcc} {e : DashRow} (he : gradedRecognized e = true) :
    (dashStep acc e).gradeDistribution = bump acc.gradeDistribution (gradeKey e) := by
  simp [dashStep, he]

/-- Invariant of the dashboard loop for the `gradeDistribution` object:
keys stay distinct, the sum of counts grows by one exactly on the
records whose grade is present and recognized, and each key's count
grows by one exactly on the records carrying that grade. -/
lemma foldl_dash_dist (l : List DashRow) (acc : DashAcc)
    (h : (keysOf acc.gradeDistribution).Nodup) :
    (keysOf (l.foldl dashStep acc).gradeDistribution).Nodup ∧
    vsum (l.foldl dashStep acc).gradeDistribution
      = vsum acc.gradeDistribution + l.countP (fun e => gradedRecognized e) ∧
    ∀ g, getCount (l.foldl dashStep acc).gradeDistribution g
      = getCount acc.gradeDistribution g
        + l.countP (fun e => gradedRecognized e && (gradeKey e == g)) := by
  induction l generalizing acc with
  | nil => simpa using h
  | cons e t ih =>
    rw [List.foldl_cons]
    by_cases he : gradedRecognized e
    · have hb : (keysOf (dashStep acc e).gradeDistribution).Nodup := by
        rw [dashStep_dist_graded he]; exact bump_keys_nodup h _
      obtain ⟨ih1, ih2, ih3⟩ := ih (dashStep acc e) hb
      refine ⟨ih1, ?_, ?_⟩
      · rw [ih2, dashStep_dist_graded he, vsum_bump h, List.countP_cons]
        simp [he]
        omega
      · intro g
        rw [ih3 g, dashStep_dist_graded he, List.countP_cons]
        by_cases hg : gradeKey e = g
        · rw [hg, getCount_bump_self h]
          simp [he, hg]
          omega
        · rw [getCount_bump_ne _ (fun hc => hg hc.symm)]
          simp [he, hg]
    · have hd : dashStep acc e = acc := by simp [dashStep, he]
      rw [hd]
      obtain ⟨ih1, ih2, ih3⟩ := ih acc h
      refine ⟨ih1, ?_, fun g => ?_⟩
      · rw [ih2, List.countP_cons]
        simp [he]
      · rw [ih3 g, List.countP_cons]
        simp [he]

/-! ## Claims about the dashboard aggregation -/

/-- **C1**: the dashboard's weighted GPA sums, over exactly the records
whose grade is present and recognized by the 13-entry Grade Scale, the
credits into a total-credits sum and `points(grade) * credits` into a
total-points sum (each record contributing independently), and equals
`total_points / total_credits` rounded to 2 decimal places; one record
with grade A and credits 3 plus one with grade C and credits 3 yields
`3.00`. -/
theorem claim_C1_weighted_gpa :
    (∀ l : List DashRow,
      dashboardGpa l =
        if 0 < specTotalCredits l then toFixed2 (specTotalPoints l / specTotalCredits l)
        else "—") ∧
    dashboardGpa [⟨some "A", "completed", some 3⟩, ⟨some "C", "completed", some 3⟩] = "3.00" := by
  refine ⟨dashboardGpa_spec, ?_⟩
  rw [dashboardGpa_spec]
  have h1 : gpaRecords [⟨some "A", "completed", some 3⟩, ⟨some "C", "completed", some 3⟩]
      = [⟨some "A", "completed", some 3⟩, ⟨some "C", "completed", some 3⟩] := by decide
  have h2 : specTotalCredits [⟨some "A", "completed", some 3⟩, ⟨some "C", "completed", some 3⟩]
      = 6 := by
    rw [specTotalCredits, h1]; norm_num [effCredits]
  have h3 : specTotalPoints [⟨some "A", "completed", some 3⟩, ⟨some "C", "completed", some 3⟩]
      = 18 := by
    rw [specTotalPoints, h1]; norm_num [effCredits, rowPoints, gradePoints]
  rw [h2, h3]
  norm_num [toFixed2]
  decide

/-- **C2**: when no record has a grade that is both present and
recognized (including the empty list), the dashboard GPA is the
"no data" sentinel — not the number zero and not `0.00`. -/
theorem claim_C2_gpa_sentinel (l : List DashRow)
    (h : ∀ e ∈ l, gradedRecognized e = false) :
    dashboardGpa l = "—" ∧ "—" ≠ "0.00" ∧ "—" ≠ "0" := by
  refine ⟨?_, by decide, by decide⟩
  rw [dashboardGpa_spec]
  have h0 : gpaRecords l = [] := by
    rw [gpaRecords, List.filter_eq_nil_iff]
    intro e he
    simp [h e he]
  rw [if_neg]
  rw [specTotalCredits, h0]
  simp

/-- Witness for **C2**: the empty list, an all-ungraded list and a list
whose only grade is unrecognized all yield the sentinel. -/
theorem claim_C2_witness :
    dashboardGpa [] = "—" ∧ dashboardGpa [⟨none, "enrolled", some 3⟩] = "—" ∧
    dashboardGpa [⟨some "Z", "completed", some 4⟩] = "—" :=
  ⟨(claim_C2_gpa_sentinel [] (by simp)).1,
   (claim_C2_gpa_sentinel [⟨none, "enrolled", some 3⟩] (by decide)).1,
   (claim_C2_gpa_sentinel [⟨some "Z", "completed", some 4⟩] (by decide)).1⟩

/-- **C3**: the dashboard's grade distribution counts records per
recognized, present grade value: the sum of all counts equals the
number of records whose grade is present and recognized, and the count
under every grade key equals the number of records carrying exactly
that (recognized, present) grade; absent or unrecognized grades
contribute to no bucket. -/
theorem claim_C3_grade_distribution (l : List DashRow) :
    vsum (dashboardGradeDistribution l) = l.countP (fun e => gradedRecognized e) ∧
    ∀ g, getCount (dashboardGradeDistribution l) g
        = l.countP (fun e => gradedRecognized e && (gradeKey e == g)) := by
  obtain ⟨-, h2, h3⟩ := foldl_dash_dist l ⟨0, 0, []⟩ (by simp [keysOf])
  exact ⟨by simpa [dashboardGradeDistribution, dashFold, vsum_nil] using h2,
         fun g => by simpa [dashboardGradeDistribution, dashFold, getCount_nil] using h3 g⟩

/-- **C10**: a record whose grade is present and recognized but whose
joined course is absent or whose credit-hours value is missing or zero
contributes the constant 3 as its credits to both the total-credits and
the total-points sums, instead of being skipped or contributing zero. -/
theorem claim_C10_default_credits (l : List DashRow) (e : DashRow)
    (h1 : gradedRecognized e = true)
    (h2 : e.course_credits = none ∨ e.course_credits = some 0) :
    effCredits e = 3 ∧
    (dashFold (l ++ [e])).totalCredits = (dashFold l).totalCredits + 3 ∧
    (dashFold (l ++ [e])).totalGradePoints
      = (dashFold l).totalGradePoints + rowPoints e * 3 := by
  have he : effCredits e = 3 := by
    rcases h2 with h | h <;> simp [effCredits, h]
  refine ⟨he, ?_, ?_⟩
  · rw [dashFold_totalCredits, dashFold_totalCredits, specTotalCredits, specTotalCredits,
      gpaRecords, gpaRecords, List.filter_append]
    simp [h1, he]
  · rw [dashFold_totalGradePoints, dashFold_totalGradePoints, specTotalPoints, specTotalPoints,
      gpaRecords, gpaRecords, List.filter_append]
    simp [h1, he]

/-- Witness for **C10**: a graded record with a missing joined course
contributes 3 credits. -/
theorem claim_C10_witness :
    effCredits ⟨some "B", "completed", none⟩ = 3 ∧
    (dashFold [⟨some "B", "completed", none⟩]).totalCredits
      = (dashFold []).totalCredits + 3 ∧
    (dashFold [⟨some "B", "completed", none⟩]).totalGradePoints
      = (dashFold []).totalGradePoints + rowPoints ⟨some "B", "completed", none⟩ * 3 := by
  have := claim_C10_default_credits [] ⟨some "B", "completed", none⟩ (by decide) (Or.inl rfl)
  simpa using this

/-! ## Pagination (`server.js` lines 134-165, 278-309, 417-479)

The three list handlers share one pagination scheme: `pageSize = 10`,
`offset = (page - 1) * pageSize` with `page` taken from the query
string (default 1), a store fetch of `range(offset, offset + 9)`
together with the exact count of all matching rows, and a JSON response
with `total = count` and `totalPages = Math.ceil(count / pageSize)`. -/

/-- The JSON body of a successful list response: the fetched page of
rows, the exact count of all matching rows, the echoed page number and
`totalPages`. -/
structure PageResp (α : Type) where
  rows : List α
  total : Nat
  page : Int
  totalPages : Nat
  deriving DecidableEq, Repr

/-- The record store's `range(lo, hi)` fetch over the matching rows, an
external-collaborator behaviour: PostgREST translates `range` into
`offset`/`limit` parameters, rejects a negative offset with a parse
error, and answers a non-negative range past the end of the result set
with an empty page. -/
def rangeSlice {α : Type} (rows : List α) (lo hi : Int) : Except String (List α) :=
  if lo < 0 then Except.error "failed to parse range parameters"
  else Except.ok ((rows.drop lo.toNat).take (hi + 1 - lo).toNat)

/-- The shared pagination logic of the three list handlers, applied to
the full tenant-scoped, filter-matching row list `matching` (whose
exact length the store reports as `count`). A store error is surfaced
as the handler's fetch-failure error. -/
def paginate {α : Type} (matching : List α) (page : Int) : Except String (PageResp α) :=
  let pageSize : Int := 10
  let offset := (page - 1) * pageSize
  match rangeSlice matching offset (offset + pageSize - 1) with
  | Except.error _ => Except.error "Failed to fetch students."
  | Except.ok rows =>
      Except.ok ⟨rows, matching.length, page, (⌈(matching.length : Rat) / 10⌉).toNat⟩

/-- `Math.ceil(n / 10)` in closed form over the naturals. -/
lemma ceil_div_ten (n : Nat) : ⌈(n : Rat) / 10⌉ = (((n + 9) / 10 : Nat) : Int) := by
  have hdm := Nat.div_add_mod (n + 9) 10
  have hm : (n + 9) % 10 < 10 := Nat.mod_lt _ (by norm_num)
  set q := (n + 9) / 10 with hqdef
  have hq1 : 10 * q ≤ n + 9 := by omega
  have hq2 : n + 9 < 10 * q + 10 := by omega
  have hq1Q : (10 * q : Rat) ≤ (n : Rat) + 9 := by exact_mod_cast hq1
  have hq2Q : ((n : Rat) + 9) < 10 * q + 10 := by exact_mod_cast hq2
  rw [Int.ceil_eq_iff]
  constructor
  · rw [lt_div_iff₀ (by norm_num : (0:Rat) < 10)]
    push_cast
    linarith
  · rw [div_le_iff₀ (by norm_num : (0:Rat) < 10)]
    have hq3 : n ≤ 10 * q := by omega
    have hq3Q : (n : Rat) ≤ 10 * q := by exact_mod_cast hq3
    push_cast
    linarith

/-- **C4**: for every listing over `N` matching rows and every page
`≥ 1`, the response succeeds, reports `total = N` and
`totalPages = ⌈N / 10⌉` (page size fixed at 10, 1-indexed pages), and
any page beyond the last valid page yields zero rows — not an error —
while `total` still equals `N`. -/
theorem claim_C4_pagination {α : Type} (rows : List α) (page : Int) (h : 1 ≤ page) :
    ∃ resp : PageResp α, paginate rows page = Except.ok resp
      ∧ resp.total = rows.length
      ∧ (resp.totalPages : Int) = ⌈(rows.length : Rat) / 10⌉
      ∧ resp.totalPages = (rows.length + 9) / 10
      ∧ ((resp.totalPages : Int) < page → resp.rows = []) := by
  have hoff : ¬ ((page - 1) * 10 < 0) := by
    push_neg
    have h1 : (0 : Int) ≤ page - 1 := by omega
    positivity
  have hceil : ⌈(rows.length : Rat) / 10⌉ = (((rows.length + 9) / 10 : Nat) : Int) :=
    ceil_div_ten rows.length
  refine ⟨⟨(rows.drop ((page - 1) * 10).toNat).take ((page - 1) * 10 + 10 - 1 + 1 - (page - 1) * 10).toNat,
      rows.length, page, (⌈(rows.length : Rat) / 10⌉).toNat⟩, ?_, rfl, ?_, ?_, ?_⟩
  · simp only [paginate, rangeSlice, if_neg hoff]
  · rw [hceil]; simp; omega
  · rw [hceil]; simp; omega
  · intro hlt
    rw [hceil] at hlt
    simp only [Int.toNat_natCast] at hlt
    have hdm := Nat.div_add_mod (rows.length + 9) 10
    have hm : (rows.length + 9) % 10 < 10 := Nat.mod_lt _ (by norm_num)
    have hdrop : rows.length ≤ ((page - 1) * 10).toNat := by omega
    rw [List.drop_eq_nil_of_le hdrop]
    simp

/-- Witness for **C4**: 25 matching rows give `totalPages = 3`, and
page 4 returns zero rows with `total = 25`. -/
theorem claim_C4_witness :
    ∃ resp : PageResp Nat, paginate (List.replicate 25 0) 4 = Except.ok resp
      ∧ resp.total = 25 ∧ (resp.totalPages : Int) = ⌈(25 : Rat) / 10⌉
      ∧ resp.totalPages = 3 ∧ resp.rows = [] := by
  obtain ⟨resp, h1, h2, h3, h4, h5⟩ :=
    claim_C4_pagination (List.replicate 25 (0 : Nat)) 4 (by norm_num)
  have h4' : resp.totalPages = 3 := by simpa using h4
  refine ⟨resp, h1, by simpa using h2, by simpa using h3, h4', h5 (by omega)⟩

/-- **C9** fails on the code: the handlers never clamp `page`, so
`page = 0` produces `offset = -10` and a `range(-10, -1)` store fetch,
which the store rejects; the handler then answers with the fetch-failure
error instead of the page-1 rows the claim requires. Evaluated here on
a one-row collection: page 0 errors while page 1 returns the row. -/
theorem claim_C9_page_below_one :
    paginate [(0 : Int)] 0 = Except.error "Failed to fetch students." ∧
    paginate [(0 : Int)] 1 = Except.ok ⟨[0], 1, 1, 1⟩ := by
  constructor
  · rfl
  · have h1 : (⌈((1 : Nat) : Rat) / 10⌉).toNat = 1 := by
      rw [ceil_div_ten 1]
      rfl
    have hoff : ¬ (((1:Int) - 1) * 10 < 0) := by norm_num
    simp only [paginate, rangeSlice, if_neg hoff]
    norm_num
    rw [show ((1 : Nat) : Rat) = 1 from by norm_num] at h1
    rw [h1]

/-! ## Update handlers (`server.js` lines 193-225, 337-369, 516-549)

`PUT /api/students/:id` and `PUT /api/courses/:id` require every field
to be present and truthy (otherwise a validation error is sent and
nothing is written) and then overwrite all fields.
`PUT /api/enrollments/:id` builds an `updates` object holding only the
keys to change: `grade` is included whenever the body supplies it
(explicitly, even as `null` or `""`, stored via `grade || null`),
`status` and `semester` only when truthy. -/

/-- A stored student row (the mutable columns). -/
structure StudentRow where
  name : String
  email : String
  course : String
  deriving DecidableEq, Repr

/-- The body of a `PUT /api/students/:id` request; `none` = field not
supplied. -/
structure StudentBody where
  name : Option String
  email : Option String
  course : Option String
  deriving DecidableEq, Repr

/-- `PUT /api/students/:id` after the existence check: validation, then
a full-field update. -/
def putStudent (b : StudentBody) : Except String StudentRow :=
  if !(truthyStr b.name) || !(truthyStr b.email) || !(truthyStr b.course) then
    Except.error "All fields are required."
  else
    Except.ok ⟨b.name.getD "", b.email.getD "", b.course.getD ""⟩

/-- The stored student row after a `PUT` request: unchanged when the
request is rejected. -/
def studentAfterPut (old : StudentRow) (b : StudentBody) : StudentRow :=
  match putStudent b with
  | Except.ok r => r
  | Except.error _ => old

/-- A stored course row (the mutable columns). -/
structure CourseRow where
  code : String
  name : String
  credits : Int
  department : String
  deriving DecidableEq, Repr

/-- The body of a `PUT /api/courses/:id` request. -/
structure CourseBody where
  code : Option String
  name : Option String
  credits : Option Int
  department : Option String
  deriving DecidableEq, Repr

/-- `PUT /api/courses/:id` after the existence check. -/
def putCourse (b : CourseBody) : Except String CourseRow :=
  if !(truthyStr b.code) || !(truthyStr b.name) || !(truthyInt b.credits)
      || !(truthyStr b.department) then
    Except.error "All fields are required."
  else
    Except.ok ⟨b.code.getD "", b.name.getD "", b.credits.getD 0, b.department.getD ""⟩

/-- The stored course row after a `PUT` request. -/
def courseAfterPut (old : CourseRow) (b : CourseBody) : CourseRow :=
  match putCourse b with
  | Except.ok r => r
  | Except.error _ => old

/-- A stored enrollment row (mutable columns of `PUT /api/enrollments`). -/
structure EnrollRow where
  grade : Option String
  status : String
  semester : String
  deriving DecidableEq, Repr

/-- The body of a `PUT /api/enrollments/:id` request. For `grade` the
outer `Option` is "was the field supplied at all" (`undefined`), the
inner one distinguishes `null` from a string. -/
structure EnrollPutBody where
  grade : Option (Option String)
  status : Option String
  semester : Option String
  deriving DecidableEq, Repr

/-- The `updates` object assembled at `server.js` lines 531-534: a key
is present (`some`) exactly when the handler adds it. -/
structure EnrollUpdates where
  grade : Option (Option String)
  status : Option String
  semester : Option String
  deriving DecidableEq, Repr

/-- Lines 531-534: `grade` is added whenever supplied (as `grade ||
null`); `status` and `semester` only when truthy. -/
def buildEnrollUpdates (b : EnrollPutBody) : EnrollUpdates :=
  { grade := match b.grade with
      | none => none
      | some g => some (jsOrNull g)
    status := match b.status with
      | none => none
      | some s => if s = "" then none else some s
    semester := match b.semester with
      | none => none
      | some s => if s = "" then none else some s }

/-- The store's partial update: keys present in `updates` overwrite the
row, absent keys leave it untouched. -/
def applyEnrollUpdates (old : EnrollRow) (u : EnrollUpdates) : EnrollRow :=
  { grade := u.grade.getD old.grade
    status := u.status.getD old.status
    semester := u.semester.getD old.semester }

/-- The stored enrollment row after a `PUT /api/enrollments/:id`. -/
def enrollAfterPut (old : EnrollRow) (b : EnrollPutBody) : EnrollRow :=
  applyEnrollUpdates old (buildEnrollUpdates b)

/-- **C5**: in every update, omitted fields retain their prior values
(for Students and Courses an omitted required field rejects the whole
request, leaving every field unchanged), and the Enrollment grade field
is cleared — stored as "no grade" — when an explicit empty value is
supplied. -/
theorem claim_C5_update_frame (eo : EnrollRow) (eb : EnrollPutBody)
    (so : StudentRow) (sb : StudentBody) (co : CourseRow) (cb : CourseBody) :
    (eb.grade = none → (enrollAfterPut eo eb).grade = eo.grade) ∧
    (eb.status = none → (enrollAfterPut eo eb).status = eo.status) ∧
    (eb.semester = none → (enrollAfterPut eo eb).semester = eo.semester) ∧
    (eb.grade = some (some "") → (enrollAfterPut eo eb).grade = none) ∧
    ((sb.name = none ∨ sb.email = none ∨ sb.course = none) → studentAfterPut so sb = so) ∧
    ((cb.code = none ∨ cb.name = none ∨ cb.credits = none ∨ cb.department = none) →
      courseAfterPut co cb = co) := by
  refine ⟨?_, ?_, ?_, ?_, ?_, ?_⟩
  · intro h; simp [enrollAfterPut, applyEnrollUpdates, buildEnrollUpdates, h]
  · intro h; simp [enrollAfterPut, applyEnrollUpdates, buildEnrollUpdates, h]
  · intro h; simp [enrollAfterPut, applyEnrollUpdates, buildEnrollUpdates, h]
  · intro h; simp [enrollAfterPut, applyEnrollUpdates, buildEnrollUpdates, h, jsOrNull]
  · rintro (h | h | h) <;> simp [studentAfterPut, putStudent, truthyStr, h]
  · rintro (h | h | h | h) <;>
      simp [courseAfterPut, putCourse, truthyStr, truthyInt, h]

/-- Witness for **C5**: concrete updates showing an omitted grade is
kept, an explicitly empty grade is cleared, and student/course updates
with a missing field change nothing. -/
theorem claim_C5_witness :
    (enrollAfterPut ⟨some "B", "enrolled", "Fall 2024"⟩ ⟨none, none, none⟩).grade = some "B" ∧
    (enrollAfterPut ⟨some "B", "enrolled", "Fall 2024"⟩ ⟨some (some ""), none, none⟩).grade = none ∧
    studentAfterPut ⟨"Ann", "a@b.com", "CS"⟩ ⟨none, some "x@y.com", some "EE"⟩
      = ⟨"Ann", "a@b.com", "CS"⟩ ∧
    courseAfterPut ⟨"CS101", "Intro", 3, "CS"⟩ ⟨some "CS102", none, some 4, some "CS"⟩
      = ⟨"CS101", "Intro", 3, "CS"⟩ := by
  refine ⟨?_, ?_, ?_, ?_⟩
  · exact (claim_C5_update_frame ⟨some "B", "enrolled", "Fall 2024"⟩ ⟨none, none, none⟩
      ⟨"Ann", "a@b.com", "CS"⟩ ⟨none, none, none⟩ ⟨"CS101", "Intro", 3, "CS"⟩
      ⟨none, none, none, none⟩).1 rfl
  · exact (claim_C5_update_frame ⟨some "B", "enrolled", "Fall 2024"⟩ ⟨some (some ""), none, none⟩
      ⟨"Ann", "a@b.com", "CS"⟩ ⟨none, none, none⟩ ⟨"CS101", "Intro", 3, "CS"⟩
      ⟨none, none, none, none⟩).2.2.2.1 rfl
  · exact (claim_C5_update_frame ⟨some "B", "enrolled", "Fall 2024"⟩ ⟨none, none, none⟩
      ⟨"Ann", "a@b.com", "CS"⟩ ⟨none, some "x@y.com", some "EE"⟩ ⟨"CS101", "Intro", 3, "CS"⟩
      ⟨none, none, none, none⟩).2.2.2.2.1 (Or.inl rfl)
  · exact (claim_C5_update_frame ⟨some "B", "enrolled", "Fall 2024"⟩ ⟨none, none, none⟩
      ⟨"Ann", "a@b.com", "CS"⟩ ⟨none, none, none⟩ ⟨"CS101", "Intro", 3, "CS"⟩
      ⟨some "CS102", none, some 4, some "CS"⟩).2.2.2.2.2 (Or.inr (Or.inl rfl))

/-! ## Enrollment creation (`server.js` lines 482-513)

The handler validates `student_id`, `course_id` and `semester`, inserts
the row, and maps a store error whose message mentions `duplicate` or
`unique` to the distinct already-enrolled error. -/

/-- A row of the `enrollments` table as declared by the migration SQL
(`src/public/script.js` lines 927-938): student and course references,
semester, nullable grade, status and the owning tenant. -/
structure StoreEnrollment where
  student_id : Int
  course_id : Int
  semester : String
  grade : Option String
  status : String
  user_id : String
  deriving DecidableEq, Repr

/-- The record store's insert into the `enrollments` table. The
migration SQL (`src/public/script.js` line 936) declares
`UNIQUE(student_id, course_id, semester)` on the table, so inserting a
row whose triple is already present — the constraint compares only the
triple, across the whole table — fails with PostgreSQL's duplicate-key
constraint violation, and a failed insert leaves the table unchanged. -/
def insertEnrollment (store : List StoreEnrollment) (row : StoreEnrollment) :
    Except String (List StoreEnrollment) :=
  if store.any (fun r => r.student_id == row.student_id && r.course_id == row.course_id
      && r.semester == row.semester) then
    Except.error "duplicate key value violates unique constraint \"enrollments_student_id_course_id_semester_key\""
  else
    Except.ok (store ++ [row])

/-- The body of a `POST /api/enrollments` request. -/
structure EnrollPostBody where
  student_id : Option Int
  course_id : Option Int
  semester : Option String
  grade : Option String
  status : Option String
  deriving DecidableEq, Repr

/-- The outcome of `POST /api/enrollments`: the HTTP response (created
row or error message) and the store contents afterwards. -/
structure PostEnrollResult where
  resp : Except String StoreEnrollment
  store : List StoreEnrollment
  deriving Repr

/-- `POST /api/enrollments` (lines 482-513): validation, insert with
`grade || null` and `status || 'enrolled'`, and the error branch that
distinguishes duplicate-key failures. -/
def postEnrollment (uid : String) (store : List StoreEnrollment) (b : EnrollPostBody) :
    PostEnrollResult :=
  if !(truthyInt b.student_id) || !(truthyInt b.course_id) || !(truthyStr b.semester) then
    ⟨Except.error "Student, course, and semester are required.", store⟩
  else
    let row : StoreEnrollment :=
      ⟨b.student_id.getD 0, b.course_id.getD 0, b.semester.getD "",
        jsOrNull b.grade, jsOrDefault b.status "enrolled", uid⟩
    match insertEnrollment store row with
    | Except.error msg =>
        if jsIncludes msg "duplicate" || jsIncludes msg "unique" then
          ⟨Except.error "Student is already enrolled in this course for this semester.", store⟩
        else
          ⟨Except.error "Failed to create enrollment.", store⟩
    | Except.ok newStore => ⟨Except.ok row, newStore⟩

/-- **C6**: creating an enrollment whose (student, course, semester)
triple already exists fails with the distinct already-enrolled error —
not the generic failure — and the store, hence the previously created
record, is unchanged. -/
theorem claim_C6_duplicate_enrollment (uid : String) (store : List StoreEnrollment)
    (b : EnrollPostBody) (r : StoreEnrollment)
    (hr : r ∈ store)
    (hs : b.student_id = some r.student_id) (hsz : r.student_id ≠ 0)
    (hc : b.course_id = some r.course_id) (hcz : r.course_id ≠ 0)
    (hm : b.semester = some r.semester) (hmz : r.semester ≠ "") :
    (postEnrollment uid store b).resp
      = Except.error "Student is already enrolled in this course for this semester." ∧
    (postEnrollment uid store b).store = store := by
  have hval : (!(truthyInt b.student_id) || !(truthyInt b.course_id)
      || !(truthyStr b.semester)) = false := by
    rw [hs, hc, hm]
    simp [truthyInt, truthyStr, hsz, hcz, hmz]
  have hdup : store.any (fun q => q.student_id == b.student_id.getD 0
      && q.course_id == b.course_id.getD 0 && q.semester == b.semester.getD "") = true := by
    rw [List.any_eq_true]
    refine ⟨r, hr, ?_⟩
    rw [hs, hc, hm]
    simp
  have hinc : jsIncludes
      "duplicate key value violates unique constraint \"enrollments_student_id_course_id_semester_key\""
      "duplicate" = true := by
    decide
  constructor <;>
    simp [postEnrollment, hval, insertEnrollment, hdup, hinc]

/-- Witness for **C6**: re-creating the (1, 2, Fall 2024) enrollment
fails with the already-enrolled error and leaves the store as it was. -/
theorem claim_C6_witness :
    (postEnrollment "u1" [⟨1, 2, "Fall 2024", none, "enrolled", "u1"⟩]
        ⟨some 1, some 2, some "Fall 2024", none, none⟩).resp
      = Except.error "Student is already enrolled in this course for this semester." ∧
    (postEnrollment "u1" [⟨1, 2, "Fall 2024", none, "enrolled", "u1"⟩]
        ⟨some 1, some 2, some "Fall 2024", none, none⟩).store
      = [⟨1, 2, "Fall 2024", none, "enrolled", "u1"⟩] :=
  claim_C6_duplicate_enrollment "u1" [⟨1, 2, "Fall 2024", none, "enrolled", "u1"⟩]
    ⟨some 1, some 2, some "Fall 2024", none, none⟩ ⟨1, 2, "Fall 2024", none, "enrolled", "u1"⟩
    (List.mem_singleton.mpr rfl) rfl (by decide) rfl (by decide) rfl (by decide)

/-! ## Distinct-value listings (`server.js` lines 401-409 and 581-589)

`GET /api/departments` and `GET /api/semesters` both run
`[...new Set((data || []).map(row => row.field))].sort()`: collect the
column, deduplicate through a `Set` (which keeps first occurrences) and
sort with the default comparator. The default comparator compares the
values converted to strings — `String(null)` is `"null"` — by their
sequences of UTF-16 code units, modelled as the lexicographic order on
the strings' character lists. Note the code never filters out `null`
column values: a `null` goes through the `Set` and the sort and appears
in the response. -/

/-- The elements of `new Set(l)` in insertion order (first occurrences
kept), relative to the elements already `seen`. -/
def jsSetElems {α : Type} [DecidableEq α] : List α → List α → List α
  | _, [] => []
  | seen, x :: xs => if x ∈ seen then jsSetElems seen xs else x :: jsSetElems (x :: seen) xs

/-- `[...new Set(l)]`. -/
def jsSetOf {α : Type} [DecidableEq α] (l : List α) : List α := jsSetElems [] l

lemma mem_jsSetElems {α : Type} [DecidableEq α] (l : List α) :
    ∀ (seen : List α) (x : α), x ∈ jsSetElems seen l ↔ x ∈ l ∧ x ∉ seen := by
  induction l with
  | nil => intro seen x; simp [jsSetElems]
  | cons a t ih =>
    intro seen x
    by_cases ha : a ∈ seen
    · rw [jsSetElems, if_pos ha, ih]
      constructor
      · rintro ⟨h1, h2⟩; exact ⟨List.mem_cons_of_mem _ h1, h2⟩
      · rintro ⟨h1, h2⟩
        rcases List.mem_cons.mp h1 with h | h
        · subst h; exact absurd ha h2
        · exact ⟨h, h2⟩
    · rw [jsSetElems, if_neg ha]
      constructor
      · intro hx
        rcases List.mem_cons.mp hx with h | h
        · subst h; exact ⟨List.mem_cons_self _ _, ha⟩
        · obtain ⟨h1, h2⟩ := (ih _ _).mp h
          refine ⟨List.mem_cons_of_mem _ h1, fun hc => h2 (List.mem_cons_of_mem _ hc)⟩
      · rintro ⟨h1, h2⟩
        rcases List.mem_cons.mp h1 with h | h
        · subst h; exact List.mem_cons_self _ _
        · by_cases hxa : x = a
          · subst hxa; exact List.mem_cons_self _ _
          · exact List.mem_cons_of_mem _
              ((ih _ _).mpr ⟨h, fun hc => by
                rcases List.mem_cons.mp hc with h3 | h3
                · exact hxa h3
                · exact h2 h3⟩)

lemma nodup_jsSetElems {α : Type} [DecidableEq α] (l : List α) :
    ∀ seen : List α, (jsSetElems seen l).Nodup := by
  induction l with
  | nil => intro seen; simp [jsSetElems]
  | cons a t ih =>
    intro seen
    by_cases ha : a ∈ seen
    · rw [jsSetElems, if_pos ha]; exact ih seen
    · rw [jsSetElems, if_neg ha]
      refine List.Nodup.cons ?_ (ih (a :: seen))
      intro hc
      exact ((mem_jsSetElems t (a :: seen) a).mp hc).2 (List.mem_cons_self _ _)

lemma mem_jsSetOf {α : Type} [DecidableEq α] (l : List α) (x : α) :
    x ∈ jsSetOf l ↔ x ∈ l := by
  rw [jsSetOf, mem_jsSetElems]
  simp

lemma nodup_jsSetOf {α : Type} [DecidableEq α] (l : List α) : (jsSetOf l).Nodup :=
  nodup_jsSetElems l []

/-- `String(v)` as the default sort comparator sees a nullable string
column value. -/
def jsStr : Option String → String
  | some s => s
  | none => "null"

/-- The default-comparator order on nullable string values: compare the
string renderings code unit by code unit. -/
def jsLe (a b : Option String) : Prop := (jsStr a).data ≤ (jsStr b).data

instance : DecidableRel jsLe := fun a b =>
  inferInstanceAs (Decidable ((jsStr a).data ≤ (jsStr b).data))

instance : IsTotal (Option String) jsLe :=
  ⟨fun a b => le_total (jsStr a).data (jsStr b).data⟩

instance : IsTrans (Option String) jsLe := ⟨fun _ _ _ h1 h2 => le_trans h1 h2⟩

/-- `[...new Set(l)].sort()`: deduplicate, then sort ascending by the
default comparator. `Array.prototype.sort` returns the sorted (stable)
permutation of its input, modelled by insertion sort. -/
def uniqueSorted (l : List (Option String)) : List (Option String) :=
  List.insertionSort jsLe (jsSetOf l)

/-- A course row as fetched by `GET /api/departments`
(`select('department')`). -/
structure DeptRow where
  department : Option String
  deriving DecidableEq, Repr

/-- An enrollment row as fetched by `GET /api/semesters`
(`select('semester')`). -/
structure SemRow where
  semester : Option String
  deriving DecidableEq, Repr

/-- `GET /api/departments` (lines 401-409). -/
def getDepartments (rows : List DeptRow) : List (Option String) :=
  uniqueSorted (rows.map DeptRow.department)

/-- `GET /api/semesters` (lines 581-589). -/
def getSemesters (rows : List SemRow) : List (Option String) :=
  uniqueSorted (rows.map SemRow.semester)

lemma uniqueSorted_props (l : List (Option String)) :
    List.Sorted jsLe (uniqueSorted l) ∧ (uniqueSorted l).Nodup ∧
    ∀ v, v ∈ uniqueSorted l ↔ v ∈ l := by
  refine ⟨List.sorted_insertionSort jsLe _, ?_, fun v => ?_⟩
  · exact (List.perm_insertionSort jsLe _).nodup_iff.mpr (nodup_jsSetOf l)
  · rw [uniqueSorted, List.mem_insertionSort, mem_jsSetOf]

/-- **C7 (amended)**: for every source collection state, the distinct-
value listings for departments and semesters return a sequence that is
sorted ascending (by the default comparator), contains no duplicates,
and contains exactly the distinct values present for the tenant — a
`null` value present in the source included, rather than filtered out. -/
theorem claim_C7_distinct_sorted (drows : List DeptRow) (srows : List SemRow) :
    (List.Sorted jsLe (getDepartments drows) ∧ (getDepartments drows).Nodup ∧
      ∀ v, v ∈ getDepartments drows ↔ v ∈ drows.map DeptRow.department) ∧
    (List.Sorted jsLe (getSemesters srows) ∧ (getSemesters srows).Nodup ∧
      ∀ v, v ∈ getSemesters srows ↔ v ∈ srows.map SemRow.semester) :=
  ⟨uniqueSorted_props _, uniqueSorted_props _⟩

/-- **C7, counterexample to the claim as stated**: the claim requires
the listings to contain *only non-null* values even when the source has
null field values, but a collection holding a `null` department yields
a response that contains `null` (sorted by its rendering `"null"`). -/
theorem claim_C7_counterexample :
    getDepartments [⟨some "CS"⟩, ⟨none⟩, ⟨some "CS"⟩] = [some "CS", none] ∧
    (none : Option String) ∈ getDepartments [⟨some "CS"⟩, ⟨none⟩, ⟨some "CS"⟩] := by
  constructor
  · decide
  · decide

/-! ## CSV export (`server.js` lines 716-752)

Both export endpoints build `[header, ...rows.map(template)].join('\n')`
where the template interpolates each field directly: text fields are
wrapped in double quotes verbatim — nothing inside the field is escaped
— the numeric fields (`id`, `credits`) are unquoted, and the grade is
interpolated as `r.grade || ''`. -/

/-- `Array.prototype.join('\n')`. -/
def joinNl : List String → String
  | [] => ""
  | [x] => x
  | x :: y :: t => x ++ "\n" ++ joinNl (y :: t)

/-- Comma-joining a list of already-rendered fields (spec phrasing:
"one line per record with fields comma-joined"). -/
def commaJoin : List String → String
  | [] => ""
  | [x] => x
  | x :: y :: t => x ++ "," ++ commaJoin (y :: t)

/-- Spec phrasing: a text field is wrapped in double quotes verbatim,
with no escaping of embedded quotes or commas. -/
def quoteField (s : String) : String := "\"" ++ s ++ "\""

/-- A row of `GET /api/export/students`
(`select('id, name, email, course, created_at')`). -/
structure ExportStudentRow where
  id : Nat
  name : String
  email : String
  course : String
  created_at : String
  deriving DecidableEq, Repr

/-- The template literal of line 726:
`` `${r.id},"${r.name}","${r.email}","${r.course}","${r.created_at}"` ``. -/
def studentCsvLine (r : ExportStudentRow) : String :=
  toString r.id ++ ",\"" ++ r.name ++ "\",\"" ++ r.email ++ "\",\"" ++ r.course
    ++ "\",\"" ++ r.created_at ++ "\""

/-- The literal header of the students export. -/
def studentsCsvHeader : String := "ID,Name,Email,Course,Created At"

/-- `GET /api/export/students` (lines 716-732). -/
def exportStudentsCsv (rows : List ExportStudentRow) : String :=
  joinNl (studentsCsvHeader :: rows.map studentCsvLine)

/-- A row of `GET /api/export/enrollments`, already carrying the joined
student and course columns. -/
structure ExportEnrollRow where
  id : Nat
  student_name : String
  student_email : String
  course_code : String
  course_name : String
  credits : Nat
  grade : Option String
  semester : String
  status : String
  enrolled_at : String
  deriving DecidableEq, Repr

/-- The template literal of line 745; note `credits` is interpolated
without quotes and the grade as `r.grade || ''`. -/
def enrollCsvLine (r : ExportEnrollRow) : String :=
  toString r.id ++ ",\"" ++ r.student_name ++ "\",\"" ++ r.student_email ++ "\",\""
    ++ r.course_code ++ "\",\"" ++ r.course_name ++ "\"," ++ toString r.credits
    ++ ",\"" ++ jsOrDefault r.grade "" ++ "\",\"" ++ r.semester ++ "\",\"" ++ r.status
    ++ "\",\"" ++ r.enrolled_at ++ "\""

/-- The literal header of the enrollments export. -/
def enrollCsvHeader : String :=
  "ID,Student Name,Student Email,Course Code,Course Name,Credits,Grade,Semester,Status,Enrolled At"

/-- `GET /api/export/enrollments` (lines 734-752). -/
def exportEnrollCsv (rows : List ExportEnrollRow) : String :=
  joinNl (enrollCsvHeader :: rows.map enrollCsvLine)

/-- The students line as the spec words it: fields comma-joined, text
fields quoted verbatim, the numeric identifier unquoted. -/
def studentCsvLineSpec (r : ExportStudentRow) : String :=
  commaJoin [toString r.id, quoteField r.name, quoteField r.email, quoteField r.course,
    quoteField r.created_at]

/-- The enrollments line as the spec words it: fields comma-joined,
text fields quoted verbatim, the numeric fields unquoted, an absent
grade emitted as an empty quoted string. -/
def enrollCsvLineSpec (r : ExportEnrollRow) : String :=
  commaJoin [toString r.id, quoteField r.student_name, quoteField r.student_email,
    quoteField r.course_code, quoteField r.course_name, toString r.credits,
    quoteField (jsOrDefault r.grade ""), quoteField r.semester, quoteField r.status,
    quoteField r.enrolled_at]

lemma studentCsvLine_spec (r : ExportStudentRow) : studentCsvLine r = studentCsvLineSpec r := by
  cases r
  simp only [studentCsvLine, studentCsvLineSpec, commaJoin, quoteField, String.append_assoc]
  rfl

lemma enrollCsvLine_spec (r : ExportEnrollRow) : enrollCsvLine r = enrollCsvLineSpec r := by
  cases r
  simp only [enrollCsvLine, enrollCsvLineSpec, commaJoin, quoteField, String.append_assoc]
  rfl

set_option maxHeartbeats 1000000 in
/-- **C8**: each CSV export is the literal header line, a newline, then
one line per record with fields comma-joined, every text field wrapped
in double quotes verbatim (no escaping: the concrete example embeds a
raw comma and a raw double quote in a name and they appear unchanged),
the numeric credit-hours field unquoted, and an absent grade emitted
as an empty quoted string. -/
theorem claim_C8_csv :
    (∀ rows, exportStudentsCsv rows = joinNl (studentsCsvHeader :: rows.map studentCsvLineSpec)) ∧
    (∀ rows, exportEnrollCsv rows = joinNl (enrollCsvHeader :: rows.map enrollCsvLineSpec)) ∧
    exportStudentsCsv [⟨1, "A, \"B\"", "a@b.com", "CS", "2024-01-01"⟩]
      = "ID,Name,Email,Course,Created At\n1,\"A, \"B\"\",\"a@b.com\",\"CS\",\"2024-01-01\"" ∧
    exportEnrollCsv [⟨1, "Ann", "a@b.com", "CS101", "Intro", 3, none, "Fall 2024", "enrolled",
        "2024-01-01"⟩]
      = "ID,Student Name,Student Email,Course Code,Course Name,Credits,Grade,Semester,Status,Enrolled At\n1,\"Ann\",\"a@b.com\",\"CS101\",\"Intro\",3,\"\",\"Fall 2024\",\"enrolled\",\"2024-01-01\"" := by
  refine ⟨?_, ?_, ?_, ?_⟩
  · intro rows
    rw [exportStudentsCsv]
    exact congrArg joinNl (congrArg _ (List.map_congr_left (fun r _ => studentCsvLine_spec r)))
  · intro rows
    rw [exportEnrollCsv]
    exact congrArg joinNl (congrArg _ (List.map_congr_left (fun r _ => enrollCsvLine_spec r)))
  · rfl
  · rfl

end StudentDB
